import Mathlib

/-!
Shallow embedding of `src/bot.py` (a Telegram YouTube downloader bot) and
proofs about it.

Conventions of the embedding:
* Python strings are modelled as `List Char` (`Str`), so that Python slicing
  `s[:n]` becomes `List.take n` and truthiness of a string is non-emptiness.
* The conversation states `MENU, PROCESSING_LINK, CHOOSING_FORMAT = range(3)`
  (bot.py line 38) become the inductive `ConvState`.  In the spec's state
  names, `MENU` plays the role of `Idle`, `PROCESSING_LINK` of `AwaitingUrl`
  and `CHOOSING_FORMAT` of `AwaitingFormat`; `Processing` is the span during
  which a download handler runs.
* External effects (the pytube provider, moviepy conversion, the Telegram
  transport) are injected as explicit parameters recording whether each
  fallible call succeeds; the filesystem is the list of temporary files an
  attempt leaves on disk when the handler returns.
-/

namespace Bot

/-- Python strings, as lists of characters. -/
abbrev Str := List Char

/-- Characters of a Lean string literal (used to embed Python string literals). -/
def chars (s : String) : Str := s.data

/-- `MENU, PROCESSING_LINK, CHOOSING_FORMAT = range(3)` (bot.py:38): the
conversation-handler states that a handler returns. -/
inductive ConvState
  | MENU
  | PROCESSING_LINK
  | CHOOSING_FORMAT
  deriving DecidableEq, Repr

/-! ## URL validation (bot.py:41-50)

`validate_url` runs `re.match` of four patterns against the input and accepts
when any matches.  `re.match` anchors at the start of the string only, so each
pattern accepts exactly the strings that start with: an optional protocol
(`http://` or `https://`), an optional `www.`, the literal host/path part, and
then at least one character outside the pattern's excluded class (`[^&]+` for
the watch form, `[^?]+` for the others); anything may follow. -/

/-- The optional-protocol alternatives of `(https?://)?`. -/
def protoStrs : List Str := [[], chars "http://", chars "https://"]

/-- The optional-`www.` alternatives of `(www\.)?`. -/
def wwwStrs : List Str := [[], chars "www."]

/-- `([^&]+)` / `([^?]+)` at the end of a pattern, matched at the given
position: there must be at least one character and it must not be the excluded
one (the rest of the string is unconstrained because `re.match` does not
anchor at the end). -/
def matchTail (excluded : Char) : Str → Bool
  | [] => false
  | c :: _ => c != excluded

/-- `re.match` of one of the four patterns: some choice of the optional
protocol and `www.` groups followed by the literal is a prefix of the input,
and the next character exists and is outside the excluded class. -/
def matchPat (lit : Str) (excluded : Char) (url : Str) : Bool :=
  protoStrs.any fun p => wwwStrs.any fun w =>
    (p ++ w ++ lit).isPrefixOf url && matchTail excluded (url.drop (p ++ w ++ lit).length)

/-- `YouTubeDownloader.validate_url` (bot.py:41-50): true iff any of the four
regexes matches the input at its start. -/
def validate_url (url : Str) : Bool :=
  matchPat (chars "youtube.com/watch?v=") '&' url ||
  matchPat (chars "youtu.be/") '?' url ||
  matchPat (chars "youtube.com/shorts/") '?' url ||
  matchPat (chars "youtube.com/embed/") '?' url

/-- Spec-side description of one supported link shape: the input decomposes
into an optional protocol, an optional `www.`, the literal host/path of the
shape, and a video-id part beginning with a character outside the excluded
class. -/
def ShapeMatch (lit : Str) (excluded : Char) (url : Str) : Prop :=
  ∃ p ∈ protoStrs, ∃ w ∈ wwwStrs, ∃ c rest, c ≠ excluded ∧ url = p ++ w ++ lit ++ c :: rest

/-! ## Stream selection (bot.py:227-233 and 335-341)

Both download handlers run
`yt.streams.filter(progressive=True, file_extension='mp4')
   .order_by('resolution').desc().first()`
and raise when the result is `None`.  `filter` keeps the streams that are
progressive (audio and video muxed in one container) with container `mp4`;
`order_by('resolution')` sorts ascending (stably), `desc()` reverses, and
`first()` takes the head — i.e. the selected stream is one of maximal
resolution among the kept streams (the last such in the original order). -/

/-- A pytube stream descriptor, with the fields the handlers consult. -/
structure Stream where
  progressive : Bool
  file_extension : String
  resolution : Nat
  filesize : Nat
  default_filename : Str
  deriving DecidableEq, Repr

/-- Fold computing `order_by('resolution').desc().first()` on a nonempty
filtered list: keep the element of maximal resolution, later elements winning
ties (matching the reversed stable sort). -/
def maxByResolution (acc : Stream) : List Stream → Stream
  | [] => acc
  | t :: ts => maxByResolution (if acc.resolution ≤ t.resolution then t else acc) ts

/-- Predicate of `streams.filter(progressive=True, file_extension='mp4')`. -/
def qualifies (s : Stream) : Bool :=
  s.progressive && s.file_extension == "mp4"

/-- The whole selection expression: `none` models pytube returning `None`
(which the handlers turn into the "Tidak bisa menemukan stream yang sesuai"
error). -/
def selectStream (ss : List Stream) : Option Stream :=
  match ss.filter qualifies with
  | [] => none
  | s :: rest => some (maxByResolution s rest)

/-! ## Metadata retrieval (bot.py:52-68)

`get_video_info` constructs `YouTube(url)` and touches `yt.title`, `yt.author`
and `yt.length`.  The provider either raises (`VideoUnavailable`,
`RegexMatchError`, `PytubeError` or anything else) or yields the three
fields; the code additionally raises `VideoUnavailable("Video info tidak
lengkap")` when `all([yt.title, yt.author, yt.length])` is false, i.e. when
the title or author is the empty string or the length is `0` (Python
truthiness).  Every failure is re-raised as `ValueError` with a
category-labelled message. -/

/-- An exception the pytube provider may raise while the metadata is read. -/
inductive ProviderExc
  | videoUnavailable (msg : String)
  | regexMatch
  | pytubeExc (msg : String)
  | otherExc (msg : String)
  deriving DecidableEq, Repr

/-- What the provider does for a given URL: raise, or report the three
metadata fields. -/
structure Provider where
  exc : Option ProviderExc
  title : Str
  author : Str
  length : Nat
  deriving DecidableEq, Repr

/-- The `ValueError` categories `get_video_info` raises (bot.py:61-68). -/
inductive InfoErr
  | unavailable (msg : String)
  | badUrl
  | pytubeFail (msg : String)
  | unexpectedFail (msg : String)
  deriving DecidableEq, Repr

/-- `all([yt.title, yt.author, yt.length])` under Python truthiness. -/
def infoComplete (p : Provider) : Bool :=
  !p.title.isEmpty && !p.author.isEmpty && p.length != 0

/-- `YouTubeDownloader.get_video_info` (bot.py:52-68). -/
def get_video_info (p : Provider) : Except InfoErr Provider :=
  match p.exc with
  | some (.videoUnavailable m) => .error (.unavailable m)
  | some .regexMatch => .error .badUrl
  | some (.pytubeExc m) => .error (.pytubeFail m)
  | some (.otherExc m) => .error (.unexpectedFail m)
  | none =>
    if infoComplete p then .ok p
    else .error (.unavailable "Video info tidak lengkap")

/-! ## Link processing (bot.py:122-203) -/

/-- Python `str.strip()` on the inbound message text (bot.py:125). -/
def pyStrip (s : Str) : Str :=
  ((s.dropWhile Char.isWhitespace).reverse.dropWhile Char.isWhitespace).reverse

/-- The session data `context.user_data['video_info']` stores (bot.py:153-159):
the url, the title truncated to 100 characters, the author and the length. -/
structure VideoInfo where
  url : Str
  title : Str
  author : Str
  length : Nat
  deriving DecidableEq, Repr

/-- Outcome of one `process_link` run: the conversation state the handler
returns, the number of user-facing messages it sent, and the stored session
data (set only on success). -/
structure LinkResult where
  retState : ConvState
  notices : Nat
  stored : Option VideoInfo
  deriving DecidableEq, Repr

/-- `process_link` (bot.py:122-203): strip the text, reject it when
`validate_url` fails (one message, stay in `PROCESSING_LINK`), reject it when
`get_video_info` raises (one message, stay in `PROCESSING_LINK`), otherwise
store the video info, send the format chooser and move to `CHOOSING_FORMAT`. -/
def process_link (text : Str) (p : Provider) : LinkResult :=
  let url := pyStrip text
  if validate_url url then
    match get_video_info p with
    | .error _ => ⟨.PROCESSING_LINK, 1, none⟩
    | .ok q => ⟨.CHOOSING_FORMAT, 1, some ⟨url, q.title.take 100, q.author, q.length⟩⟩
  else ⟨.PROCESSING_LINK, 1, none⟩

/-! ## The download handlers (bot.py:205-311 and 313-403)

Both handlers are modelled as functions of the stored session data, the
provider's stream list, and an `Env` recording whether each external call
(the stream download, the moviepy conversion, the Telegram upload) succeeds.
The `files` field of the result is the set of temporary files of the attempt
still on disk when the handler returns: a successful attempt deletes them in
the cleanup block (bot.py:280-285 / 373-377, tolerating missing files), while
every `except` branch returns `MENU` without touching the filesystem. -/

/-- `TEMP_DIR = "temp_downloads"` (bot.py:27). -/
def tempDir : Str := chars "temp_downloads"

/-- The container path of the MP3 flow:
`stream.download(output_path=TEMP_DIR, filename_prefix="temp_")`
(bot.py:235-238) writes to the stream's default file name, prefixed. -/
def videoPathMp3 (s : Stream) : Str := tempDir ++ chars "/temp_" ++ s.default_filename

/-- The container path of the MP4 flow (bot.py:343-346), role tag `video_`. -/
def videoPathMp4 (s : Stream) : Str := tempDir ++ chars "/video_" ++ s.default_filename

/-- `os.path.join(TEMP_DIR, f"...mp3")` with the stored title cut to 50
characters (bot.py:249). -/
def mp3Path (title : Str) : Str := tempDir ++ chars "/" ++ title.take 50 ++ chars ".mp3"

/-- Success/failure of the three external calls of a download attempt. -/
structure Env where
  downloadOk : Bool
  convertOk : Bool
  uploadOk : Bool
  deriving DecidableEq, Repr

/-- The metadata handed to `bot.send_audio` (bot.py:267-275). -/
structure SentAudio where
  title : Str
  performer : Str
  duration : Nat
  deriving DecidableEq, Repr

/-- The `ValueError` raised on each failing step of a handler. -/
inductive FlowErr
  | expired
  | noStream
  | downloadFail
  | convertFail
  | uploadFail
  deriving DecidableEq, Repr

/-- Outcome of one download-handler run. `dlCalls` counts invocations of
`stream.download` (the handlers never retry). -/
structure FlowResult where
  retState : ConvState
  files : List Str
  sentAudio : Option SentAudio
  sentCaption : Option Str
  err : Option FlowErr
  dlCalls : Nat
  deriving DecidableEq, Repr

/-- `download_mp3` (bot.py:205-311). -/
def download_mp3 (info : Option VideoInfo) (streams : List Stream) (env : Env) :
    FlowResult :=
  match info with
  | none => ⟨.MENU, [], none, none, some .expired, 0⟩
  | some vi =>
    match selectStream streams with
    | none => ⟨.MENU, [], none, none, some .noStream, 0⟩
    | some s =>
      if env.downloadOk then
        let vp := videoPathMp3 s
        if env.convertOk then
          let ap := mp3Path vi.title
          if env.uploadOk then
            ⟨.MENU, [], some ⟨vi.title.take 30, vi.author, vi.length⟩, none, none, 1⟩
          else ⟨.MENU, [vp, ap], none, none, some .uploadFail, 1⟩
        else ⟨.MENU, [vp], none, none, some .convertFail, 1⟩
      else ⟨.MENU, [], none, none, some .downloadFail, 1⟩

/-- `download_mp4` (bot.py:313-403).  The caption handed to `bot.send_video`
is the stored title cut to 60 characters (bot.py:362). -/
def download_mp4 (info : Option VideoInfo) (streams : List Stream) (env : Env) :
    FlowResult :=
  match info with
  | none => ⟨.MENU, [], none, none, some .expired, 0⟩
  | some vi =>
    match selectStream streams with
    | none => ⟨.MENU, [], none, none, some .noStream, 0⟩
    | some s =>
      if env.downloadOk then
        let vp := videoPathMp4 s
        if env.uploadOk then
          ⟨.MENU, [], none, some (vi.title.take 60), none, 1⟩
        else ⟨.MENU, [vp], none, none, some .uploadFail, 1⟩
      else ⟨.MENU, [], none, none, some .downloadFail, 1⟩

/-! ## Concurrent sessions and artifact naming (for the storage-collision
analysis)

A `SessionRun` is one user's attempt: their identity plus the data their
attempt works on.  The artifact paths the code writes are computed from the
stream's default file name and the stored title alone — the user identity is
a field of the run but never enters the path computation, exactly as in the
source, where `TEMP_DIR`, `filename_prefix` and the title are the only
inputs. -/

structure SessionRun where
  userId : Nat
  info : VideoInfo
  stream : Stream
  deriving DecidableEq, Repr

/-- The paths an MP3 attempt of this session writes (container, then audio). -/
def sessionPathsMp3 (r : SessionRun) : List Str :=
  [videoPathMp3 r.stream, mp3Path r.info.title]

/-- The path an MP4 attempt of this session writes. -/
def sessionPathsMp4 (r : SessionRun) : List Str :=
  [videoPathMp4 r.stream]

/-! ## Event dispatch (bot.py:484-528)

`main` registers a `ConversationHandler` with per-state callback tables
(bot.py:497-517).  The application is built with default (blocking) handlers
and without `concurrent_updates`, so updates of the conversation are taken
from the update queue one at a time: each handler runs to completion before
the next queued update is dispatched, against whatever state the previous
handler returned.  `dispatchCb` is that per-state table for callback events;
an event no entry matches is dropped (`handled = false`).  `dispatchQueue`
folds it over a queue of events, returning the final state, the handled flag
of each event in order, and the total number of download-handler starts. -/

structure BotEnv where
  info : Option VideoInfo
  streams : List Stream
  env : Env
  deriving DecidableEq, Repr

structure StepOut where
  st : ConvState
  handled : Bool
  dlStarts : Nat
  deriving DecidableEq, Repr

/-- One callback event against the `ConversationHandler` state table
(bot.py:499-514): `MENU` handles `download`/`help`/`back`,
`PROCESSING_LINK` handles `back`, `CHOOSING_FORMAT` handles
`mp3`/`mp4`/`back`. -/
def dispatchCb (be : BotEnv) (st : ConvState) (d : String) : StepOut :=
  match st with
  | .MENU =>
    if d == "download" then ⟨.PROCESSING_LINK, true, 0⟩
    else if d == "help" then ⟨.MENU, true, 0⟩
    else if d == "back" then ⟨.MENU, true, 0⟩
    else ⟨st, false, 0⟩
  | .PROCESSING_LINK =>
    if d == "back" then ⟨.MENU, true, 0⟩
    else ⟨st, false, 0⟩
  | .CHOOSING_FORMAT =>
    if d == "mp3" then ⟨(download_mp3 be.info be.streams be.env).retState, true, 1⟩
    else if d == "mp4" then ⟨(download_mp4 be.info be.streams be.env).retState, true, 1⟩
    else if d == "back" then ⟨.MENU, true, 0⟩
    else ⟨st, false, 0⟩

/-- Sequential processing of a queue of callback events: events arriving
while a handler runs wait in the queue and are dispatched afterwards. -/
def dispatchQueue (be : BotEnv) (st : ConvState) : List String → ConvState × List Bool × Nat
  | [] => (st, [], 0)
  | d :: ds =>
    let o := dispatchCb be st d
    let r := dispatchQueue be o.st ds
    (r.1, o.handled :: r.2.1, o.dlStarts + r.2.2)

/-! ## Concrete sample data used to evaluate the model -/

def demoStream360 : Stream := ⟨true, "mp4", 360, 1000000, chars "Test.mp4"⟩

def demoStream720 : Stream := ⟨true, "mp4", 720, 2000000, chars "Test.mp4"⟩

def demoStreamAdaptive : Stream := ⟨false, "mp4", 1080, 3000000, chars "Test.mp4"⟩

def demoStreamWebm : Stream := ⟨true, "webm", 480, 1500000, chars "Test.webm"⟩

def demoStreams : List Stream :=
  [demoStream360, demoStreamAdaptive, demoStream720, demoStreamWebm]

def demoInfo : VideoInfo := ⟨chars "https://youtu.be/abc123", chars "Test", chars "Ch", 125⟩

/-! # Theorems -/

theorem maxByResolution_mem (acc : Stream) (ts : List Stream) :
    maxByResolution acc ts = acc ∨ maxByResolution acc ts ∈ ts := by
  induction ts generalizing acc with
  | nil => left; rfl
  | cons t ts ih =>
    rcases ih (if acc.resolution ≤ t.resolution then t else acc) with h | h
    · rw [maxByResolution, h]
      by_cases hle : acc.resolution ≤ t.resolution
      · right; simp [hle]
      · left; simp [hle]
    · right
      rw [maxByResolution]
      exact List.mem_cons_of_mem _ h

theorem maxByResolution_le (acc : Stream) (ts : List Stream) :
    acc.resolution ≤ (maxByResolution acc ts).resolution ∧
    ∀ t ∈ ts, t.resolution ≤ (maxByResolution acc ts).resolution := by
  induction ts generalizing acc with
  | nil => exact ⟨Nat.le_refl _, by intro t ht; cases ht⟩
  | cons t ts ih =>
    rw [maxByResolution]
    obtain ⟨h1, h2⟩ := ih (if acc.resolution ≤ t.resolution then t else acc)
    by_cases hle : acc.resolution ≤ t.resolution
    · refine ⟨Nat.le_trans hle (by simpa [hle] using h1), ?_⟩
      intro u hu
      rcases List.mem_cons.mp hu with rfl | hu
      · simpa [hle] using h1
      · exact h2 u hu
    · refine ⟨by simpa [hle] using h1, ?_⟩
      intro u hu
      rcases List.mem_cons.mp hu with rfl | hu
      · exact Nat.le_trans (Nat.le_of_lt (Nat.lt_of_not_le hle)) (by simpa [hle] using h1)
      · exact h2 u hu

theorem qualifies_iff (s : Stream) :
    qualifies s = true ↔ s.progressive = true ∧ s.file_extension = "mp4" := by
  simp [qualifies]

theorem selectStream_none_iff (ss : List Stream) :
    selectStream ss = none ↔
      ∀ t ∈ ss, ¬(t.progressive = true ∧ t.file_extension = "mp4") := by
  have h : selectStream ss = none ↔ ss.filter qualifies = [] := by
    unfold selectStream
    cases ss.filter qualifies <;> simp
  rw [h, List.filter_eq_nil_iff]
  constructor
  · intro hall t ht hq
    exact hall t ht ((qualifies_iff t).mpr hq)
  · intro hall t ht hq
    exact hall t ht ((qualifies_iff t).mp hq)

theorem selectStream_some_spec (ss : List Stream) (s : Stream)
    (h : selectStream ss = some s) :
    s ∈ ss ∧ s.progressive = true ∧ s.file_extension = "mp4" ∧
      ∀ t ∈ ss, t.progressive = true → t.file_extension = "mp4" →
        t.resolution ≤ s.resolution := by
  unfold selectStream at h
  cases hf : ss.filter qualifies with
  | nil => rw [hf] at h; cases h
  | cons a rest =>
    rw [hf] at h
    have hs : maxByResolution a rest = s := Option.some.inj h
    have hmem : s ∈ ss.filter qualifies := by
      rw [hf]
      rcases maxByResolution_mem a rest with hm | hm
      · rw [hs] at hm; rw [← hm]; exact List.mem_cons_self s rest
      · rw [hs] at hm; exact List.mem_cons_of_mem a hm
    obtain ⟨hmem', hq⟩ := List.mem_filter.mp hmem
    obtain ⟨hp, he⟩ := (qualifies_iff s).mp hq
    refine ⟨hmem', hp, he, ?_⟩
    intro t ht htp hte
    have htf : t ∈ ss.filter qualifies :=
      List.mem_filter.mpr ⟨ht, (qualifies_iff t).mpr ⟨htp, hte⟩⟩
    rw [hf] at htf
    obtain ⟨h1, h2⟩ := maxByResolution_le a rest
    rcases List.mem_cons.mp htf with rfl | htf
    · rw [← hs]; exact h1
    · rw [← hs]; exact h2 t htf

/-- C4: among the resolved candidate streams, the selection step picks a
self-contained (progressive) stream whose container is mp4 with maximal
resolution among such streams; it returns `none` (the handlers' no-suitable-
stream failure) exactly when no candidate is progressive with container mp4,
and never selects a stream lacking a combined audio+video track. -/
theorem stream_selection_correct (ss : List Stream) :
    (∀ s, selectStream ss = some s →
        s ∈ ss ∧ s.progressive = true ∧ s.file_extension = "mp4" ∧
          ∀ t ∈ ss, t.progressive = true → t.file_extension = "mp4" →
            t.resolution ≤ s.resolution) ∧
    (selectStream ss = none ↔
        ∀ t ∈ ss, ¬(t.progressive = true ∧ t.file_extension = "mp4")) :=
  ⟨fun s h => selectStream_some_spec ss s h, selectStream_none_iff ss⟩

/-- Witness for C4 at a concrete candidate list: the 720p progressive mp4
stream is selected over a lower progressive stream, a 1080p adaptive stream
and a webm stream. -/
theorem stream_selection_correct_witness :
    demoStream720 ∈ demoStreams ∧ demoStream720.progressive = true ∧
      demoStream720.file_extension = "mp4" ∧
      demoStream360.resolution ≤ demoStream720.resolution := by
  obtain ⟨h1, h2, h3, h4⟩ :=
    (stream_selection_correct demoStreams).1 demoStream720 (by decide)
  exact ⟨h1, h2, h3, h4 demoStream360 (by decide) (by decide) (by decide)⟩

theorem prefixTail_iff (pre : Str) (e : Char) (url : Str) :
    (pre.isPrefixOf url && matchTail e (url.drop pre.length)) = true ↔
      ∃ c rest, c ≠ e ∧ url = pre ++ c :: rest := by
  rw [Bool.and_eq_true, List.isPrefixOf_iff_prefix]
  constructor
  · rintro ⟨⟨t, rfl⟩, htail⟩
    rw [List.drop_left] at htail
    cases t with
    | nil => simp [matchTail] at htail
    | cons c rest =>
      refine ⟨c, rest, ?_, rfl⟩
      simpa [matchTail] using htail
  · rintro ⟨c, rest, hne, rfl⟩
    refine ⟨⟨c :: rest, rfl⟩, ?_⟩
    rw [List.drop_left]
    simp [matchTail, hne]

theorem matchPat_iff (lit : Str) (e : Char) (url : Str) :
    matchPat lit e url = true ↔ ShapeMatch lit e url := by
  unfold matchPat ShapeMatch
  simp only [List.any_eq_true, prefixTail_iff, List.append_assoc]

/-- C5: `validate_url` accepts a string exactly when it has one of the four
enumerated link shapes — canonical watch form, short-link youtu.be form,
shorts form or embed form — each matched prefix-wise (an optional protocol,
an optional `www.`, the literal host/path, then a nonempty video id); every
string without one of these shapes is rejected.  The embedding is a pure
function, so validation has no side effects. -/
theorem validate_url_iff (url : Str) :
    validate_url url = true ↔
      (ShapeMatch (chars "youtube.com/watch?v=") '&' url ∨
       ShapeMatch (chars "youtu.be/") '?' url ∨
       ShapeMatch (chars "youtube.com/shorts/") '?' url ∨
       ShapeMatch (chars "youtube.com/embed/") '?' url) := by
  unfold validate_url
  simp only [Bool.or_eq_true, matchPat_iff, or_assoc]

/-- Witness for C5: the short-link shape with protocol `https://` and no
`www.` is accepted, and a shapeless string is rejected. -/
theorem validate_url_iff_witness :
    validate_url (chars "https://youtu.be/abc123") = true ∧
    validate_url (chars "not a link") = false :=
  ⟨(validate_url_iff (chars "https://youtu.be/abc123")).mpr
      (Or.inr (Or.inl ⟨chars "https://", by decide, [], by decide, 'a', chars "bc123",
        by decide, by decide⟩)),
    by decide⟩

theorem download_mp3_menu (info : Option VideoInfo) (streams : List Stream) (env : Env) :
    (download_mp3 info streams env).retState = ConvState.MENU := by
  unfold download_mp3
  cases info with
  | none => rfl
  | some vi =>
    cases selectStream streams with
    | none => rfl
    | some s =>
      by_cases h1 : env.downloadOk <;> by_cases h2 : env.convertOk <;>
        by_cases h3 : env.uploadOk <;> simp [h1, h2, h3]

theorem download_mp4_menu (info : Option VideoInfo) (streams : List Stream) (env : Env) :
    (download_mp4 info streams env).retState = ConvState.MENU := by
  unfold download_mp4
  cases info with
  | none => rfl
  | some vi =>
    cases selectStream streams with
    | none => rfl
    | some s =>
      by_cases h1 : env.downloadOk <;> by_cases h3 : env.uploadOk <;> simp [h1, h3]

theorem download_mp3_dlCalls (info : Option VideoInfo) (streams : List Stream) (env : Env) :
    (download_mp3 info streams env).dlCalls ≤ 1 := by
  unfold download_mp3
  cases info with
  | none => exact Nat.zero_le 1
  | some vi =>
    cases selectStream streams with
    | none => exact Nat.zero_le 1
    | some s =>
      by_cases h1 : env.downloadOk <;> by_cases h2 : env.convertOk <;>
        by_cases h3 : env.uploadOk <;> simp [h1, h2, h3]

theorem download_mp4_dlCalls (info : Option VideoInfo) (streams : List Stream) (env : Env) :
    (download_mp4 info streams env).dlCalls ≤ 1 := by
  unfold download_mp4
  cases info with
  | none => exact Nat.zero_le 1
  | some vi =>
    cases selectStream streams with
    | none => exact Nat.zero_le 1
    | some s =>
      by_cases h1 : env.downloadOk <;> by_cases h3 : env.uploadOk <;> simp [h1, h3]

/-- C1 counterexample: a Processing attempt that fails at the conversion step
resolves (the handler returns to the menu) with the downloaded container
still on disk — the cleanup block (bot.py:280-285) runs only on the success
path, so an error path does leave a temporary artifact behind. -/
theorem cleanup_leaves_artifact_on_conversion_failure :
    (download_mp3 (some demoInfo) demoStreams ⟨true, false, true⟩).err =
        some FlowErr.convertFail ∧
    (download_mp3 (some demoInfo) demoStreams ⟨true, false, true⟩).retState =
        ConvState.MENU ∧
    (download_mp3 (some demoInfo) demoStreams ⟨true, false, true⟩).files ≠ [] := by
  decide

/-- C1 (amended): temporary artifacts are removed only when the attempt
succeeds end to end — on a fully successful MP3 or MP4 attempt no file of the
attempt remains on disk, while an attempt failing after the download (e.g. at
conversion) returns with the downloaded container still on disk. -/
theorem cleanup_only_on_success :
    (∀ vi streams, (download_mp3 (some vi) streams ⟨true, true, true⟩).files = []) ∧
    (∀ vi streams, (download_mp4 (some vi) streams ⟨true, true, true⟩).files = []) ∧
    (∀ vi streams s, selectStream streams = some s →
      (download_mp3 (some vi) streams ⟨true, false, true⟩).files = [videoPathMp3 s]) := by
  refine ⟨?_, ?_, ?_⟩
  · intro vi streams
    unfold download_mp3
    cases selectStream streams <;> simp
  · intro vi streams
    unfold download_mp4
    cases selectStream streams <;> simp
  · intro vi streams s h
    unfold download_mp3
    rw [h]
    simp

/-- Witness for C1 (amended) on the sample data. -/
theorem cleanup_only_on_success_witness :
    (download_mp3 (some demoInfo) demoStreams ⟨true, true, true⟩).files = [] ∧
    (download_mp4 (some demoInfo) demoStreams ⟨true, true, true⟩).files = [] ∧
    (download_mp3 (some demoInfo) demoStreams ⟨true, false, true⟩).files =
        [videoPathMp3 demoStream720] := by
  obtain ⟨h1, h2, h3⟩ := cleanup_only_on_success
  exact ⟨h1 demoInfo demoStreams, h2 demoInfo demoStreams,
    h3 demoInfo demoStreams demoStream720 (by decide)⟩

/-- C2 (code-bug evidence): the handlers enforce no size cap at all.  A
progressive mp4 stream of 60 MB — above the 50 MB limit the bot's own help
text announces — downloads, converts and delivers without any size-related
failure, in both flows, and the behaviour is independent of the stream's
file size. -/
theorem no_size_cap_enforced :
    (50 * 1024 * 1024 < (60 * 1024 * 1024 : Nat)) ∧
    (download_mp3 (some demoInfo)
        [⟨true, "mp4", 720, 60 * 1024 * 1024, chars "Big.mp4"⟩]
        ⟨true, true, true⟩).err = none ∧
    (download_mp3 (some demoInfo)
        [⟨true, "mp4", 720, 60 * 1024 * 1024, chars "Big.mp4"⟩]
        ⟨true, true, true⟩).sentAudio.isSome = true ∧
    (download_mp4 (some demoInfo)
        [⟨true, "mp4", 720, 60 * 1024 * 1024, chars "Big.mp4"⟩]
        ⟨true, true, true⟩).err = none ∧
    (download_mp4 (some demoInfo)
        [⟨true, "mp4", 720, 60 * 1024 * 1024, chars "Big.mp4"⟩]
        ⟨true, true, true⟩).sentCaption.isSome = true ∧
    ∀ n : Nat,
      (download_mp3 (some demoInfo) [⟨true, "mp4", 720, n, chars "Big.mp4"⟩]
        ⟨true, true, true⟩).err = none := by
  refine ⟨by decide, by decide, by decide, by decide, by decide, ?_⟩
  intro n
  simp [download_mp3, selectStream, qualifies, List.filter, maxByResolution]

/-- C3 counterexample: two sessions of distinct users downloading the same
video write to identical artifact paths — the path computation uses only the
stream's default file name and the stored title, with the fixed role tags
`temp_`/`video_`, never the session identity. -/
theorem distinct_sessions_same_paths :
    (SessionRun.mk 1 demoInfo demoStream720).userId ≠
        (SessionRun.mk 2 demoInfo demoStream720).userId ∧
    sessionPathsMp3 ⟨1, demoInfo, demoStream720⟩ =
        sessionPathsMp3 ⟨2, demoInfo, demoStream720⟩ ∧
    sessionPathsMp4 ⟨1, demoInfo, demoStream720⟩ =
        sessionPathsMp4 ⟨2, demoInfo, demoStream720⟩ ∧
    sessionPathsMp3 ⟨1, demoInfo, demoStream720⟩ ≠ [] := by
  decide

/-- C3 (amended): every artifact path is a deterministic function of the
stream's default file name and the stored media title together with a fixed
role tag; the session identifier never enters the computation, so two
sessions handling the same media share their artifact paths. -/
theorem artifact_paths_ignore_session (r r' : SessionRun)
    (ht : r.info.title = r'.info.title) (hs : r.stream = r'.stream) :
    sessionPathsMp3 r = sessionPathsMp3 r' ∧ sessionPathsMp4 r = sessionPathsMp4 r' := by
  simp [sessionPathsMp3, sessionPathsMp4, videoPathMp3, videoPathMp4, mp3Path, ht, hs]

/-- Witness for C3 (amended). -/
theorem artifact_paths_ignore_session_witness :
    sessionPathsMp3 ⟨5, demoInfo, demoStream360⟩ =
        sessionPathsMp3 ⟨6, demoInfo, demoStream360⟩ ∧
    sessionPathsMp4 ⟨5, demoInfo, demoStream360⟩ =
        sessionPathsMp4 ⟨6, demoInfo, demoStream360⟩ :=
  artifact_paths_ignore_session ⟨5, demoInfo, demoStream360⟩ ⟨6, demoInfo, demoStream360⟩
    rfl rfl

/-- C7: on every execution-class failure of a download handler (download,
conversion or upload failure) the handler returns to `MENU` — the state
playing the spec's `Idle` role — with at most one download call, i.e. no
automatic retry; moreover both handlers return `MENU` on every outcome
whatsoever, so a session is never left stuck in Processing. -/
theorem execution_failure_resets_idle_no_retry
    (info : Option VideoInfo) (streams : List Stream) (env : Env) :
    ((download_mp3 info streams env).err = some FlowErr.downloadFail ∨
     (download_mp3 info streams env).err = some FlowErr.convertFail ∨
     (download_mp3 info streams env).err = some FlowErr.uploadFail →
      (download_mp3 info streams env).retState = ConvState.MENU ∧
      (download_mp3 info streams env).dlCalls ≤ 1) ∧
    ((download_mp4 info streams env).err = some FlowErr.downloadFail ∨
     (download_mp4 info streams env).err = some FlowErr.uploadFail →
      (download_mp4 info streams env).retState = ConvState.MENU ∧
      (download_mp4 info streams env).dlCalls ≤ 1) ∧
    (download_mp3 info streams env).retState = ConvState.MENU ∧
    (download_mp4 info streams env).retState = ConvState.MENU :=
  ⟨fun _ => ⟨download_mp3_menu info streams env, download_mp3_dlCalls info streams env⟩,
   fun _ => ⟨download_mp4_menu info streams env, download_mp4_dlCalls info streams env⟩,
   download_mp3_menu info streams env, download_mp4_menu info streams env⟩

/-- Witness for C7: a failing download resets the session to the menu with a
single download call. -/
theorem execution_failure_resets_idle_no_retry_witness :
    (download_mp3 (some demoInfo) demoStreams ⟨false, true, true⟩).retState =
        ConvState.MENU ∧
    (download_mp3 (some demoInfo) demoStreams ⟨false, true, true⟩).dlCalls ≤ 1 :=
  (execution_failure_resets_idle_no_retry (some demoInfo) demoStreams
    ⟨false, true, true⟩).1 (Or.inl (by decide))

/-- C6 counterexample: the no-suitable-stream failure — the code's
`NoSuitableStream` — arises in the download handler given a candidate list
with no progressive mp4 stream, and the handler resets the session to `MENU`
(the `Idle` role), not to `PROCESSING_LINK` (the `AwaitingUrl` role), so the
user cannot retry with another link without restarting the flow. -/
theorem no_suitable_stream_resets_to_menu :
    (download_mp3 (some demoInfo) [demoStreamAdaptive, demoStreamWebm]
        ⟨true, true, true⟩).err = some FlowErr.noStream ∧
    (download_mp3 (some demoInfo) [demoStreamAdaptive, demoStreamWebm]
        ⟨true, true, true⟩).retState = ConvState.MENU ∧
    ConvState.MENU ≠ ConvState.PROCESSING_LINK := by
  decide

/-- C6 (amended): every failure of `process_link` — invalid URL, unavailable
source, incomplete metadata, or any resolution error — returns the session to
`PROCESSING_LINK` (the `AwaitingUrl` role) with exactly one user-facing
notification, so the user may retry with another link; the no-suitable-stream
failure, by contrast, arises in the download handlers and resets the session
to `MENU` (the `Idle` role). -/
theorem link_errors_return_awaiting_url :
    (∀ text p, (process_link text p).stored = none →
        (process_link text p).retState = ConvState.PROCESSING_LINK ∧
        (process_link text p).notices = 1) ∧
    (∀ vi streams env, selectStream streams = none →
        (download_mp3 (some vi) streams env).retState = ConvState.MENU ∧
        (download_mp3 (some vi) streams env).err = some FlowErr.noStream ∧
        (download_mp4 (some vi) streams env).retState = ConvState.MENU ∧
        (download_mp4 (some vi) streams env).err = some FlowErr.noStream) := by
  constructor
  · intro text p h
    by_cases hv : validate_url (pyStrip text) = true
    · cases hg : get_video_info p with
      | error e => simp [process_link, hv, hg]
      | ok q => simp [process_link, hv, hg] at h
    · simp [process_link, hv]
  · intro vi streams env h
    unfold download_mp3 download_mp4
    rw [h]
    simp

/-- Witness for C6 (amended): a shapeless input is rejected in place with one
notification, and an mp3 attempt over a list without progressive mp4 streams
fails with the no-stream error back at the menu. -/
theorem link_errors_return_awaiting_url_witness :
    (process_link (chars "not a link") ⟨none, chars "T", chars "A", 10⟩).retState =
        ConvState.PROCESSING_LINK ∧
    (process_link (chars "not a link") ⟨none, chars "T", chars "A", 10⟩).notices = 1 ∧
    (download_mp4 (some demoInfo) [demoStreamWebm] ⟨true, true, true⟩).retState =
        ConvState.MENU := by
  obtain ⟨h1, h2⟩ := link_errors_return_awaiting_url
  obtain ⟨ha, hb⟩ := h1 (chars "not a link") ⟨none, chars "T", chars "A", 10⟩ (by decide)
  exact ⟨ha, hb, (h2 demoInfo [demoStreamWebm] ⟨true, true, true⟩ (by decide)).2.2.1⟩

theorem download_mp3_sentAudio (vi : VideoInfo) (streams : List Stream) (env : Env)
    (a : SentAudio) (h : (download_mp3 (some vi) streams env).sentAudio = some a) :
    a = ⟨vi.title.take 30, vi.author, vi.length⟩ := by
  unfold download_mp3 at h
  cases hs : selectStream streams <;> rw [hs] at h
  · cases h
  · by_cases h1 : env.downloadOk <;> by_cases h2 : env.convertOk <;>
      by_cases h3 : env.uploadOk <;> simp [h1, h2, h3] at h
    exact h.symm

theorem download_mp4_sentCaption (vi : VideoInfo) (streams : List Stream) (env : Env)
    (c : Str) (h : (download_mp4 (some vi) streams env).sentCaption = some c) :
    c = vi.title.take 60 := by
  unfold download_mp4 at h
  cases hs : selectStream streams <;> rw [hs] at h
  · cases h
  · by_cases h1 : env.downloadOk <;> by_cases h3 : env.uploadOk <;>
      simp [h1, h3] at h
    exact h.symm

/-- C8: the audio metadata handed to the transport carries the stored title
cut to its first 30 characters, and the video caption the stored title cut to
its first 60 — always at most 30 resp. 60 characters and always an initial
segment of the stored title; a fully successful attempt delivers no matter
how long the title is, so oversized metadata is truncated, never rejected. -/
theorem metadata_truncated (vi : VideoInfo) (streams : List Stream) (env : Env) :
    (∀ a, (download_mp3 (some vi) streams env).sentAudio = some a →
        a.title = vi.title.take 30 ∧ a.title.length ≤ 30 ∧
        a.title ++ vi.title.drop 30 = vi.title) ∧
    (∀ c, (download_mp4 (some vi) streams env).sentCaption = some c →
        c = vi.title.take 60 ∧ c.length ≤ 60 ∧ c ++ vi.title.drop 60 = vi.title) ∧
    (∀ s, selectStream streams = some s →
        (download_mp3 (some vi) streams ⟨true, true, true⟩).sentAudio.isSome = true ∧
        (download_mp4 (some vi) streams ⟨true, true, true⟩).sentCaption.isSome = true) := by
  refine ⟨?_, ?_, ?_⟩
  · intro a ha
    rw [download_mp3_sentAudio vi streams env a ha]
    refine ⟨rfl, ?_, List.take_append_drop 30 vi.title⟩
    simp [List.length_take]
  · intro c hc
    rw [download_mp4_sentCaption vi streams env c hc]
    refine ⟨rfl, ?_, List.take_append_drop 60 vi.title⟩
    simp [List.length_take]
  · intro s h
    unfold download_mp3 download_mp4
    rw [h]
    simp

/-- Witness for C8 on the sample data: the delivered audio title is the
30-character cut of the stored title. -/
theorem metadata_truncated_witness :
    (⟨demoInfo.title.take 30, demoInfo.author, demoInfo.length⟩ : SentAudio).title =
        demoInfo.title.take 30 ∧
    (⟨demoInfo.title.take 30, demoInfo.author, demoInfo.length⟩ : SentAudio).title.length
        ≤ 30 := by
  obtain ⟨h1, _, _⟩ := metadata_truncated demoInfo demoStreams ⟨true, true, true⟩
  obtain ⟨ha, hb, _⟩ :=
    h1 ⟨demoInfo.title.take 30, demoInfo.author, demoInfo.length⟩ (by decide)
  exact ⟨ha, hb⟩

/-- C9 counterexample: with the session at the format chooser, a `mp3`
callback followed by a `back` callback that arrived while the download
handler was running are both executed — the later event is queued and
dispatched after the handler returns, not rejected as busy. -/
theorem later_event_executed_not_rejected :
    (dispatchQueue ⟨some demoInfo, demoStreams, ⟨true, true, true⟩⟩
        ConvState.CHOOSING_FORMAT ["mp3", "back"]).2.1 = [true, true] ∧
    (dispatchQueue ⟨some demoInfo, demoStreams, ⟨true, true, true⟩⟩
        ConvState.CHOOSING_FORMAT ["mp3", "back"]).2.2 = 1 := by
  decide

/-- C9 (amended): events of one user are dispatched strictly sequentially
from the queue — a format callback arriving while a download handler runs is
dispatched only after the handler returns, against the `MENU` state the
handler left, where no `mp3`/`mp4` entry exists; so over two consecutive
format events exactly one download attempt starts, the later event is
silently dropped rather than busy-rejected, and no two attempts ever run
concurrently for the same identity. -/
theorem sequential_dispatch_single_attempt (be : BotEnv) (d1 d2 : String)
    (h1 : d1 = "mp3" ∨ d1 = "mp4") (h2 : d2 = "mp3" ∨ d2 = "mp4") :
    (dispatchQueue be ConvState.CHOOSING_FORMAT [d1, d2]).2.2 = 1 ∧
    (dispatchQueue be ConvState.CHOOSING_FORMAT [d1, d2]).2.1 = [true, false] := by
  have hm3 := download_mp3_menu be.info be.streams be.env
  have hm4 := download_mp4_menu be.info be.streams be.env
  rcases h1 with rfl | rfl <;> rcases h2 with rfl | rfl <;>
    simp [dispatchQueue, dispatchCb, hm3, hm4]

/-- Witness for C9 (amended): a double `mp3` click yields one attempt. -/
theorem sequential_dispatch_single_attempt_witness :
    (dispatchQueue ⟨some demoInfo, demoStreams, ⟨true, true, true⟩⟩
        ConvState.CHOOSING_FORMAT ["mp3", "mp4"]).2.2 = 1 ∧
    (dispatchQueue ⟨some demoInfo, demoStreams, ⟨true, true, true⟩⟩
        ConvState.CHOOSING_FORMAT ["mp3", "mp4"]).2.1 = [true, false] :=
  sequential_dispatch_single_attempt ⟨some demoInfo, demoStreams, ⟨true, true, true⟩⟩
    "mp3" "mp4" (Or.inl rfl) (Or.inr rfl)

/-- C10: when the provider reports all three fields but the duration is zero
(or the title or author is the empty string), `get_video_info` fails with the
unavailable-category error carrying the incomplete-info message, and
`process_link` with such a provider never reaches the format-selection state
and stores nothing. -/
theorem zero_length_fails_metadata (p : Provider) (hexc : p.exc = none)
    (hbad : p.length = 0 ∨ p.title = [] ∨ p.author = []) :
    get_video_info p = Except.error (InfoErr.unavailable "Video info tidak lengkap") ∧
    ∀ text, (process_link text p).retState ≠ ConvState.CHOOSING_FORMAT ∧
      (process_link text p).stored = none := by
  have hic : infoComplete p = false := by
    rcases hbad with h | h | h <;> simp [infoComplete, h]
  have hg : get_video_info p =
      Except.error (InfoErr.unavailable "Video info tidak lengkap") := by
    simp [get_video_info, hexc, hic]
  refine ⟨hg, ?_⟩
  intro text
  by_cases hv : validate_url (pyStrip text) = true <;> simp [process_link, hv, hg]

/-- Witness for C10: a zero-duration video with nonempty title and author is
rejected as incomplete. -/
theorem zero_length_fails_metadata_witness :
    get_video_info ⟨none, chars "Title", chars "Author", 0⟩ =
        Except.error (InfoErr.unavailable "Video info tidak lengkap") ∧
    (process_link (chars "https://youtu.be/abc123")
        ⟨none, chars "Title", chars "Author", 0⟩).stored = none := by
  have h := zero_length_fails_metadata ⟨none, chars "Title", chars "Author", 0⟩ rfl
    (Or.inl rfl)
  exact ⟨h.1, (h.2 (chars "https://youtu.be/abc123")).2⟩

end Bot
